import Mathlib

/-!
Shallow embedding of chipStar's backend-agnostic execution core
(`src/CHIPBackend.cc` and `src/backend/Level0/CHIPBackendLevel0.hh`),
with theorems checking the natural-language specification against it.

Pointers and sizes are modelled as `Nat` (a pointer value of `0` is the
C++ `nullptr`); `size_t` arithmetic is taken modulo `2 ^ 64` where the
source can overflow.  C++ code that throws is modelled with `Except`.
-/

/-- `2 ^ 64`, the modulus of the C++ `size_t` type. -/
def SIZE_T_MOD : Nat := 18446744073709551616

/-- Unsigned 64-bit subtraction `a - b` (operands below `SIZE_T_MOD`). -/
def usub (a b : Nat) : Nat := (a + SIZE_T_MOD - b) % SIZE_T_MOD

/-- Error codes of the `hipError_t` values this file needs. -/
inductive hipError where
  | hipSuccess
  | hipErrorMemoryAllocation
  | hipErrorInvalidDevicePointer
  | hipErrorTbd
  deriving DecidableEq

/-- `allocation_info`: base pointer and size of one device allocation. -/
structure allocation_info where
  base_ptr : Nat
  size : Nat
  deriving DecidableEq

/-- `std::map` store: insert or overwrite the binding of key `k`. -/
def mapStore (m : List (Nat × allocation_info)) (k : Nat) (v : allocation_info) :
    List (Nat × allocation_info) :=
  match m with
  | [] => [(k, v)]
  | (k', v') :: rest => if k' = k then (k, v) :: rest else (k', v') :: mapStore rest k v

/-- `std::map` lookup of key `k`. -/
def mapFind (m : List (Nat × allocation_info)) (k : Nat) : Option allocation_info :=
  match m with
  | [] => none
  | (k', v') :: rest => if k' = k then some v' else mapFind rest k

/-- `CHIPAllocationTracker`: per-device ledger of reserved memory.
The fields mirror the C++ members used by `CHIPBackend.cc` (`host_to_dev`
and the diagnostic `name` string are omitted: no claim touches them). -/
structure CHIPAllocationTracker where
  global_mem_size : Nat
  total_mem_used : Nat
  max_mem_used : Nat
  dev_to_allocation_info : List (Nat × allocation_info)
  deriving DecidableEq

/-- `CHIPAllocationTracker::CHIPAllocationTracker(global_mem_size_, name_)`:
`total_mem_used` and `max_mem_used` start at zero. -/
def mkCHIPAllocationTracker (global_mem_size_ : Nat) : CHIPAllocationTracker :=
  { global_mem_size := global_mem_size_
    total_mem_used := 0
    max_mem_used := 0
    dev_to_allocation_info := [] }

/-- `CHIPAllocationTracker::reserveMem(bytes)`: if
`bytes <= global_mem_size - total_mem_used` (unsigned subtraction), add
`bytes` to `total_mem_used`, update `max_mem_used` and return `true`;
otherwise `CHIPERR_LOG_AND_THROW(..., hipErrorMemoryAllocation)`. -/
def reserveMem (t : CHIPAllocationTracker) (bytes : Nat) :
    Except hipError (CHIPAllocationTracker × Bool) :=
  if bytes ≤ usub t.global_mem_size t.total_mem_used then
    .ok ({ t with
            total_mem_used := (t.total_mem_used + bytes) % SIZE_T_MOD
            max_mem_used :=
              if (t.total_mem_used + bytes) % SIZE_T_MOD > t.max_mem_used then
                (t.total_mem_used + bytes) % SIZE_T_MOD
              else t.max_mem_used },
         true)
  else
    .error .hipErrorMemoryAllocation

/-- `CHIPAllocationTracker::releaseMemReservation(bytes)`: if
`total_mem_used >= bytes`, subtract and return `true`; otherwise leave the
counter unchanged and return `false`. -/
def releaseMemReservation (t : CHIPAllocationTracker) (bytes : Nat) :
    CHIPAllocationTracker × Bool :=
  if t.total_mem_used ≥ bytes then
    ({ t with total_mem_used := t.total_mem_used - bytes }, true)
  else
    (t, false)

/-- `CHIPAllocationTracker::recordAllocation(dev_ptr, size_)`: store
`allocation_info{dev_ptr, size_}` under key `dev_ptr`. -/
def recordAllocation (t : CHIPAllocationTracker) (dev_ptr size_ : Nat) :
    CHIPAllocationTracker :=
  { t with dev_to_allocation_info :=
      mapStore t.dev_to_allocation_info dev_ptr ⟨dev_ptr, size_⟩ }

/-- `CHIPAllocationTracker::getByDevPtr(dev_ptr)`: throw `hipErrorTbd` when
the pointer is not in `dev_to_allocation_info`, otherwise return its record. -/
def getByDevPtr (t : CHIPAllocationTracker) (dev_ptr : Nat) :
    Except hipError allocation_info :=
  match mapFind t.dev_to_allocation_info dev_ptr with
  | none => .error .hipErrorTbd
  | some info => .ok info

/-- One call against a tracker: `reserveMem` or `releaseMemReservation`. -/
inductive TrackerOp where
  | reserve (bytes : Nat)
  | release (bytes : Nat)

/-- Effect of one call on the tracker state.  A `reserveMem` that throws
leaves the state unchanged (the exception propagates to the caller, who may
keep using the tracker). -/
def trackerStep (t : CHIPAllocationTracker) : TrackerOp → CHIPAllocationTracker
  | .reserve b =>
    match reserveMem t b with
    | .ok (t', _) => t'
    | .error _ => t
  | .release b => (releaseMemReservation t b).1

/-- Run a call sequence against a tracker created with capacity `g`. -/
def runTracker (g : Nat) (ops : List TrackerOp) : CHIPAllocationTracker :=
  ops.foldl trackerStep (mkCHIPAllocationTracker g)

/-- `CHIPContext::allocate(size, alignment, mem_type)`, tracker part.  The
backend-native allocation `allocate_` is external to `CHIPBackend.cc`; its
result is the parameter `nativePtr` (`0` = `nullptr`).  The source reserves,
returns `nullptr` if `reserveMem` reported `false`, rolls the reservation
back if `allocate_` returned `nullptr`, records the allocation
(unconditionally, even of a null pointer) and returns the pointer. -/
def CHIPContext_allocate (t : CHIPAllocationTracker) (nativePtr : Nat) (size : Nat) :
    Except hipError (Nat × CHIPAllocationTracker) :=
  match reserveMem t size with
  | .error e => .error e
  | .ok (t1, reserved) =>
    if !reserved then
      .ok (0, t1)
    else
      let t2 := if nativePtr = 0 then (releaseMemReservation t1 size).1 else t1
      let t3 := recordAllocation t2 nativePtr size
      .ok (nativePtr, t3)

/-- `CHIPContext::free(ptr)`, tracker part: look the pointer up
(`getByDevPtr` throws on an unknown pointer), release the reservation of
`info->size` bytes, call the native `free_` (external, no tracker effect)
and return `hipSuccess`.  The record is not removed from
`dev_to_allocation_info`. -/
def CHIPContext_free (t : CHIPAllocationTracker) (ptr : Nat) :
    Except hipError (hipError × CHIPAllocationTracker) :=
  match getByDevPtr t ptr with
  | .error e => .error e
  | .ok info =>
    let t1 := (releaseMemReservation t info.size).1
    .ok (.hipSuccess, t1)

/-- The fields of `hipDeviceProp_t` that `CHIPBackend::findDeviceMatchingProps`
inspects, in the order the source checks them. -/
structure hipDeviceProp_t where
  major : Nat
  minor : Nat
  totalGlobalMem : Nat
  sharedMemPerBlock : Nat
  maxThreadsPerBlock : Nat
  totalConstMem : Nat
  multiProcessorCount : Nat
  maxThreadsPerMultiProcessor : Nat
  memoryClockRate : Nat
  memoryBusWidth : Nat
  l2CacheSize : Nat
  regsPerBlock : Nat
  maxSharedMemoryPerMultiProcessor : Nat
  warpSize : Nat
  deriving DecidableEq

/-- The all-zero `hipDeviceProp_t` (`= {0}` in the source). -/
def zeroProps : hipDeviceProp_t :=
  ⟨0, 0, 0, 0, 0, 0, 0, 0, 0, 0, 0, 0, 0, 0⟩

/-- A backend device as `findDeviceMatchingProps` sees it: its position in
`chip_devices` and the properties `copyDeviceProperties` copies out. -/
structure CHIPDeviceRec where
  idx : Nat
  props : hipDeviceProp_t
  deriving DecidableEq

/-- The `(properties->field, currentProp.field)` pairs, one per `if` block of
`findDeviceMatchingProps`, in source order. -/
def fieldPairs (req cur : hipDeviceProp_t) : List (Nat × Nat) :=
  [(req.major, cur.major), (req.minor, cur.minor),
   (req.totalGlobalMem, cur.totalGlobalMem),
   (req.sharedMemPerBlock, cur.sharedMemPerBlock),
   (req.maxThreadsPerBlock, cur.maxThreadsPerBlock),
   (req.totalConstMem, cur.totalConstMem),
   (req.multiProcessorCount, cur.multiProcessorCount),
   (req.maxThreadsPerMultiProcessor, cur.maxThreadsPerMultiProcessor),
   (req.memoryClockRate, cur.memoryClockRate),
   (req.memoryBusWidth, cur.memoryBusWidth),
   (req.l2CacheSize, cur.l2CacheSize),
   (req.regsPerBlock, cur.regsPerBlock),
   (req.maxSharedMemoryPerMultiProcessor, cur.maxSharedMemoryPerMultiProcessor),
   (req.warpSize, cur.warpSize)]

/-- `validPropCount`: how many requested fields are non-zero. -/
def validPropCount (req cur : hipDeviceProp_t) : Nat :=
  (fieldPairs req cur).foldl (fun n p => if p.1 ≠ 0 then n + 1 else n) 0

/-- `matchedCount`: how many requested fields the candidate meets or exceeds. -/
def matchedCount (req cur : hipDeviceProp_t) : Nat :=
  (fieldPairs req cur).foldl (fun n p => if p.1 ≠ 0 ∧ p.1 ≤ p.2 then n + 1 else n) 0

/-- Loop body of `findDeviceMatchingProps`: a candidate with
`validPropCount == matchedCount` replaces `matched_device` only when its
count strictly exceeds `maxMatchedCount`. -/
def findDevFold (properties : hipDeviceProp_t) (acc : Option CHIPDeviceRec × Nat)
    (dev : CHIPDeviceRec) : Option CHIPDeviceRec × Nat :=
  let valid := validPropCount properties dev.props
  let matched := matchedCount properties dev.props
  if valid = matched then
    ((if matched > acc.2 then some dev else acc.1), max matched acc.2)
  else
    acc

/-- `CHIPBackend::findDeviceMatchingProps(properties)` over the backend's
`chip_devices` list.  The C++ `matched_device` local is never initialized;
it is modelled as `none` (returned when no candidate ever qualifies with a
positive count). -/
def findDeviceMatchingProps (chip_devices : List CHIPDeviceRec)
    (properties : hipDeviceProp_t) : Option CHIPDeviceRec :=
  (chip_devices.foldl (findDevFold properties) (none, 0)).1

/-- The request of the spec's scenario: only `major = 3` is specified. -/
def reqMajor3 : hipDeviceProp_t := { zeroProps with major := 3 }

/-- The claim's qualification predicate: the candidate meets or exceeds
every non-zero requested property field. -/
def meetsAllRequested (req cur : hipDeviceProp_t) : Prop :=
  ∀ p ∈ fieldPairs req cur, p.1 ≠ 0 → p.1 ≤ p.2

/-- `CHIPExecItem`: launch shape plus the serialized argument buffer
`arg_data` (a `std::vector<uint8_t>`, modelled as a list of byte values)
and the `offset_sizes` table. -/
structure CHIPExecItem where
  grid_dim : Nat × Nat × Nat
  block_dim : Nat × Nat × Nat
  shared_mem : Nat
  arg_data : List Nat
  offset_sizes : List (Nat × Nat)
  deriving DecidableEq

/-- `CHIPExecItem::CHIPExecItem(grid_dim_, block_dim_, shared_mem_, queue)`:
the argument buffer and table start empty. -/
def mkCHIPExecItem (grid_dim_ block_dim_ : Nat × Nat × Nat) (shared_mem_ : Nat) :
    CHIPExecItem :=
  { grid_dim := grid_dim_
    block_dim := block_dim_
    shared_mem := shared_mem_
    arg_data := []
    offset_sizes := [] }

/-- `std::vector<uint8_t>::resize(n)`: truncate to `n` elements or pad with
zero-initialized elements up to `n`. -/
def vectorResize (v : List Nat) (n : Nat) : List Nat :=
  v.take n ++ List.replicate (n - v.length) 0

/-- `memcpy(v.data() + offset, arg, arg.length)`: overwrite
`[offset, offset + arg.length)` of the buffer with the argument's bytes. -/
def memcpyInto (v : List Nat) (offset : Nat) (arg : List Nat) : List Nat :=
  v.take offset ++ arg ++ v.drop (offset + arg.length)

/-- `CHIPExecItem::setArg(arg, size, offset)`: grow `arg_data` to
`offset + size + 1024` when `offset + size` exceeds its size, copy the
argument's bytes to `offset`, and append `(offset, size)` to
`offset_sizes`.  The C++ `(arg, size)` pointer-length pair is modelled as
the list `arg` of the `size` bytes it points to. -/
def setArg (e : CHIPExecItem) (arg : List Nat) (offset : Nat) : CHIPExecItem :=
  let data :=
    if offset + arg.length > e.arg_data.length then
      vectorResize e.arg_data (offset + arg.length + 1024)
    else
      e.arg_data
  { e with
      arg_data := memcpyInto data offset arg
      offset_sizes := e.offset_sizes ++ [(offset, arg.length)] }

/-- `CHIPExecItem::getArgData()`: the serialized argument buffer. -/
def getArgData (e : CHIPExecItem) : List Nat := e.arg_data

/-- Read `size` bytes at `offset` from a serialized buffer. -/
def readBytes (v : List Nat) (offset size : Nat) : List Nat :=
  (v.drop offset).take size

/-- `CHIPDeviceVar`: name, registered size, device address (`0` until the
allocation step sets it), has-initializer flag. -/
structure CHIPDeviceVar where
  Name : String
  Size : Nat
  DevAddr : Nat
  HasInitializer : Bool
  deriving DecidableEq

/-- `CHIPVarInfo`: the `{size, alignment, hasInitializer}` triple a variable's
info shadow kernel writes back. -/
structure CHIPVarInfo where
  size : Nat
  alignment : Nat
  hasInitializer : Nat
  deriving DecidableEq

/-- `CHIPModule`'s device-variable state: the declared variables and the two
lifecycle flags (compilation and the kernel table are not needed by the
claims over this path). -/
structure CHIPModule where
  chip_vars : List CHIPDeviceVar
  DeviceVariablesAllocated : Bool
  DeviceVariablesInitialized : Bool
  deriving DecidableEq

/-- Counters for the externally visible device work the variable-lifecycle
functions issue: auxiliary (shadow) kernels queued, blocking `Queue::finish`
calls, `Ctx->allocate` calls, async memory copies. -/
structure DevEffects where
  shadowKernels : Nat
  finishes : Nat
  allocations : Nat
  memCopies : Nat
  deriving DecidableEq

/-- No device work. -/
def noEffects : DevEffects := ⟨0, 0, 0, 0⟩

/-- Responses of the device to the variable-lifecycle protocol: the
`CHIPVarInfo` each info shadow kernel reports (positional, one per
variable) and the device address each storage allocation returns. -/
structure DeviceOracle where
  infos : List CHIPVarInfo
  addrs : List Nat
  deriving DecidableEq

/-- `CHIPModule::allocateDeviceVariablesNoLock(Device, Queue)`.  The body:
`DeviceVariablesAllocated |= chip_vars.empty()`; if allocated, return
`hipSuccess` with no device work.  Otherwise allocate the shared
`VarInfoBuf`, queue one info shadow kernel per variable, copy the buffer
back and `finish`; then per variable allocate storage of the reported size,
set the device address, set the has-initializer flag and queue one bind
shadow kernel; `finish` again and set the allocated flag.  Device responses
come from `oracle`; the backend-native queue submissions themselves are
external and only counted. -/
def allocateDeviceVariablesNoLock (oracle : DeviceOracle) (m : CHIPModule) :
    CHIPModule × DevEffects × hipError :=
  let m1 := { m with DeviceVariablesAllocated :=
                m.DeviceVariablesAllocated || m.chip_vars.isEmpty }
  if m1.DeviceVariablesAllocated then
    (m1, noEffects, .hipSuccess)
  else
    let n := m1.chip_vars.length
    let vars' := (m1.chip_vars.zip (oracle.infos.zip oracle.addrs)).map
      (fun q => { q.1 with
                    DevAddr := q.2.2
                    HasInitializer := q.2.1.hasInitializer ≠ 0 })
    ({ m1 with chip_vars := vars', DeviceVariablesAllocated := true },
     { shadowKernels := n + n
       finishes := 2
       allocations := 1 + n
       memCopies := 1 },
     .hipSuccess)

/-- `CHIPModule::initializeDeviceVariablesNoLock(Device, Queue)`: run
`allocateDeviceVariablesNoLock` first; then
`DeviceVariablesInitialized |= chip_vars.empty()`; if initialized, return.
Otherwise queue one init shadow kernel per variable with an initializer,
`finish` only if at least one was queued, and set the initialized flag. -/
def initializeDeviceVariablesNoLock (oracle : DeviceOracle) (m : CHIPModule) :
    CHIPModule × DevEffects :=
  let r := allocateDeviceVariablesNoLock oracle m
  let m1 := r.1
  let eff1 := r.2.1
  let m2 := { m1 with DeviceVariablesInitialized :=
                m1.DeviceVariablesInitialized || m1.chip_vars.isEmpty }
  if m2.DeviceVariablesInitialized then
    (m2, eff1)
  else
    let queued := (m2.chip_vars.filter (fun v => v.HasInitializer)).length
    ({ m2 with DeviceVariablesInitialized := true },
     { eff1 with
         shadowKernels := eff1.shadowKernels + queued
         finishes := eff1.finishes + (if queued > 0 then 1 else 0) })

/-- `event_status_e`: the event lifecycle states. -/
inductive event_status_e where
  | EVENT_STATUS_INIT
  | EVENT_STATUS_RECORDING
  | EVENT_STATUS_COMPLETE
  deriving DecidableEq

/-- `CHIPEvent`, the fields `recordStream` touches. -/
structure CHIPEvent where
  event_status : event_status_e
  deriving DecidableEq

/-- `CHIPEvent::recordStream(chip_queue)`: after asserting the queue has a
last event and taking it over (`takeOver` swaps the backend-native handle;
it is external to `CHIPBackend.cc` and does not touch `event_status`), the
status is set to `EVENT_STATUS_RECORDING` unconditionally. -/
def recordStream (e : CHIPEvent) : CHIPEvent :=
  { e with event_status := .EVENT_STATUS_RECORDING }

/-- `CHIPEventLevel0`, the fields of the deferred-action interface:
the event status and the `Actions_` vector (actions as labels). -/
structure CHIPEventLevel0 where
  event_status : event_status_e
  Actions_ : List Nat
  deriving DecidableEq

/-- Modelled from the spec: `isFinished` — its definition lives in
`CHIPBackend.hh`, which is not among the sources; per the spec's `Event`
state machine an event is finished exactly when it has reached `COMPLETE`. -/
def isFinished (e : CHIPEventLevel0) : Bool :=
  e.event_status = .EVENT_STATUS_COMPLETE

/-- `CHIPEventLevel0::addAction(Action)`: append to `Actions_`. -/
def addAction (e : CHIPEventLevel0) (a : Nat) : CHIPEventLevel0 :=
  { e with Actions_ := e.Actions_ ++ [a] }

/-- `CHIPEventLevel0::doActions()`: `assert(isFinished())`; run every action
in `Actions_` in order, then clear the vector.  Returns the new event state
and the list of actions executed, in execution order. -/
def doActions (e : CHIPEventLevel0) : CHIPEventLevel0 × List Nat :=
  ({ e with Actions_ := [] }, e.Actions_)

/-- One operation recorded on a queue, with the event that represents it. -/
inductive QueueOpRecord where
  | priorOp (ev : Nat)
  | barrier (waitsOn : List Nat) (ev : Nat)
  | marker (ev : Nat)
  deriving DecidableEq

/-- The event of a queue operation. -/
def opEvent : QueueOpRecord → Nat
  | .priorOp ev => ev
  | .barrier _ ev => ev
  | .marker ev => ev

/-- State for the `CHIPCallbackData::setup` scenario: a counter for fresh
event identities, each event's status, and the queue's submitted
operations in order. -/
structure CallbackSetupState where
  nextEventId : Nat
  statuses : List (Nat × event_status_e)
  queueOps : List QueueOpRecord
  deriving DecidableEq

/-- `Backend->createCHIPEvent(ctx)`: a fresh event, status
`EVENT_STATUS_INIT`, bound to no operation. -/
def createCHIPEvent (s : CallbackSetupState) : Nat × CallbackSetupState :=
  (s.nextEventId,
   { s with
       nextEventId := s.nextEventId + 1
       statuses := s.statuses ++ [(s.nextEventId, .EVENT_STATUS_INIT)] })

/-- Modelled from the spec: `chip_queue->enqueueBarrier(eventsToWaitFor)` —
`enqueueBarrierImpl` is backend-specific and not among the sources; per the
spec, enqueueing submits a barrier that waits on the given events and
returns a fresh event bound to the submitted operation (hence
`EVENT_STATUS_RECORDING`). -/
def enqueueBarrier (s : CallbackSetupState) (eventsToWaitFor : List Nat) :
    Nat × CallbackSetupState :=
  (s.nextEventId,
   { nextEventId := s.nextEventId + 1
     statuses := s.statuses ++ [(s.nextEventId, .EVENT_STATUS_RECORDING)]
     queueOps := s.queueOps ++ [.barrier eventsToWaitFor s.nextEventId] })

/-- Modelled from the spec: `chip_queue->enqueueMarker()` — as for
`enqueueBarrier`, the returned fresh event is bound to the submitted
marker. -/
def enqueueMarker (s : CallbackSetupState) : Nat × CallbackSetupState :=
  (s.nextEventId,
   { nextEventId := s.nextEventId + 1
     statuses := s.statuses ++ [(s.nextEventId, .EVENT_STATUS_RECORDING)]
     queueOps := s.queueOps ++ [.marker s.nextEventId] })

/-- `CHIPCallbackData`'s three member events. -/
structure CHIPCallbackData where
  gpu_ready : Nat
  cpu_callback_complete : Nat
  gpu_ack : Nat
  deriving DecidableEq

/-- `CHIPCallbackData::setup()`, line by line: create the three member
events; then `auto gpu_ready = chip_queue->enqueueBarrier(nullptr);`
declares a LOCAL `gpu_ready` that shadows the member, so the barrier's
event is discarded and the member keeps the fresh unbound event; enqueue
the barrier waiting on the member `cpu_callback_complete`; then
`CHIPEvent *gpu_ack = chip_queue->enqueueMarker();` likewise shadows the
member `gpu_ack`. -/
def CHIPCallbackData_setup (s : CallbackSetupState) :
    CHIPCallbackData × CallbackSetupState :=
  let r1 := createCHIPEvent s
  let r2 := createCHIPEvent r1.2
  let r3 := createCHIPEvent r2.2
  let gpu_ready := r1.1
  let cpu_callback_complete := r2.1
  let gpu_ack := r3.1
  let r4 := enqueueBarrier r3.2 []
  let r5 := enqueueBarrier r4.2 [cpu_callback_complete]
  let r6 := enqueueMarker r5.2
  (⟨gpu_ready, cpu_callback_complete, gpu_ack⟩, r6.2)

/-- Status lookup in a `CallbackSetupState`. -/
def eventStatus (s : CallbackSetupState) (ev : Nat) : Option event_status_e :=
  (s.statuses.find? (fun p => p.1 = ev)).map (fun p => p.2)

/-- The initial state of the spec's `addCallback` scenario: one prior
operation (event `0`, recording) already submitted on the queue. -/
def onePriorOpState : CallbackSetupState :=
  { nextEventId := 1
    statuses := [(0, .EVENT_STATUS_RECORDING)]
    queueOps := [.priorOp 0] }

/-! ## Theorems -/

theorem reserveMem_ok (t : CHIPAllocationTracker) (b : Nat)
    (t' : CHIPAllocationTracker) (r : Bool)
    (h : reserveMem t b = .ok (t', r)) :
    t'.global_mem_size = t.global_mem_size ∧
    t'.total_mem_used = (t.total_mem_used + b) % SIZE_T_MOD ∧
    b ≤ usub t.global_mem_size t.total_mem_used ∧ r = true := by
  unfold reserveMem at h
  split at h
  · simp only [Except.ok.injEq, Prod.mk.injEq] at h
    obtain ⟨ht, hr⟩ := h
    subst ht
    simp_all
  · simp at h

theorem trackerStep_inv (t : CHIPAllocationTracker) (op : TrackerOp)
    (h1 : t.total_mem_used ≤ t.global_mem_size)
    (h2 : t.global_mem_size < SIZE_T_MOD) :
    (trackerStep t op).total_mem_used ≤ (trackerStep t op).global_mem_size ∧
    (trackerStep t op).global_mem_size = t.global_mem_size := by
  cases op with
  | reserve b =>
    simp only [trackerStep]
    cases hr : reserveMem t b with
    | ok res =>
      obtain ⟨t', r⟩ := res
      obtain ⟨hg, hu, hc, _⟩ := reserveMem_ok t b t' r hr
      refine ⟨?_, hg⟩
      rw [hu, hg]
      unfold usub SIZE_T_MOD at *
      omega
    | error e => exact ⟨h1, rfl⟩
  | release b =>
    simp only [trackerStep, releaseMemReservation]
    split
    · refine ⟨?_, rfl⟩
      simp
      omega
    · exact ⟨h1, rfl⟩

theorem foldl_trackerStep_inv (ops : List TrackerOp) :
    ∀ t : CHIPAllocationTracker, t.total_mem_used ≤ t.global_mem_size →
      t.global_mem_size < SIZE_T_MOD →
      (ops.foldl trackerStep t).total_mem_used ≤
        (ops.foldl trackerStep t).global_mem_size ∧
      (ops.foldl trackerStep t).global_mem_size = t.global_mem_size := by
  induction ops with
  | nil => exact fun t h1 _ => ⟨h1, rfl⟩
  | cons op ops ih =>
    intro t h1 h2
    simp only [List.foldl_cons]
    obtain ⟨hs1, hs2⟩ := trackerStep_inv t op h1 h2
    obtain ⟨ha, hb⟩ := ih (trackerStep t op) (hs2 ▸ hs1) (hs2 ▸ h2)
    exact ⟨ha, hb.trans hs2⟩

/-- C1: for every finite sequence of `reserveMem`/`releaseMemReservation`
calls on one `CHIPAllocationTracker` created with capacity
`global_mem_size`, after every call `0 ≤ total_mem_used ≤ global_mem_size`
(quantifying over all sequences covers the state after each call of any
longer sequence). -/
theorem c1_tracker_used_within_capacity (g : Nat) (ops : List TrackerOp)
    (hg : g < SIZE_T_MOD) :
    0 ≤ (runTracker g ops).total_mem_used ∧
    (runTracker g ops).total_mem_used ≤ g := by
  obtain ⟨h1, h2⟩ :=
    foldl_trackerStep_inv ops (mkCHIPAllocationTracker g) (Nat.zero_le _) hg
  refine ⟨Nat.zero_le _, ?_⟩
  rw [show (mkCHIPAllocationTracker g).global_mem_size = g from rfl] at h2
  rw [runTracker]
  omega

/-- Witness for C1 at capacity `100` and a concrete call sequence. -/
theorem c1_witness :
    0 ≤ (runTracker 100 [.reserve 60, .release 20, .reserve 55]).total_mem_used ∧
    (runTracker 100 [.reserve 60, .release 20, .reserve 55]).total_mem_used ≤ 100 :=
  c1_tracker_used_within_capacity 100 [.reserve 60, .release 20, .reserve 55]
    (by decide)

/-- C4 counterexample: with `total_mem_used = 1`, releasing `2` bytes does
not clamp the counter to zero — it leaves it at `1` (and returns `false`),
refuting "decrements `total_mem_used` by `bytes` with the result clamped
at zero". -/
theorem c4_counterexample :
    (releaseMemReservation ⟨10, 1, 1, []⟩ 2).2 = false ∧
    (releaseMemReservation ⟨10, 1, 1, []⟩ 2).1.total_mem_used = 1 ∧
    ¬ (releaseMemReservation ⟨10, 1, 1, []⟩ 2).1.total_mem_used = 0 := by
  decide

/-- C4 (amended): `releaseMemReservation(bytes)` decrements
`total_mem_used` by `bytes` and returns `true` when `bytes` does not exceed
the outstanding `total_mem_used`; otherwise it returns `false` and leaves
`total_mem_used` (and everything else) unchanged — the over-release is
reported, not applied. -/
theorem c4_releaseMemReservation_reports_over_release
    (t : CHIPAllocationTracker) (bytes : Nat) :
    ((releaseMemReservation t bytes).2 = false ↔ t.total_mem_used < bytes) ∧
    (releaseMemReservation t bytes).1.total_mem_used =
      (if bytes ≤ t.total_mem_used then t.total_mem_used - bytes
       else t.total_mem_used) ∧
    (releaseMemReservation t bytes).1.global_mem_size = t.global_mem_size ∧
    (releaseMemReservation t bytes).1.dev_to_allocation_info =
      t.dev_to_allocation_info := by
  unfold releaseMemReservation
  split <;> simp_all <;> omega

/-- Witness for C4 (amended) at a concrete tracker state. -/
theorem c4_witness :
    ((releaseMemReservation ⟨10, 7, 7, []⟩ 3).2 = false ↔ (7 : Nat) < 3) ∧
    (releaseMemReservation ⟨10, 7, 7, []⟩ 3).1.total_mem_used =
      (if 3 ≤ 7 then 7 - 3 else 7) ∧
    (releaseMemReservation ⟨10, 7, 7, []⟩ 3).1.global_mem_size = 10 ∧
    (releaseMemReservation ⟨10, 7, 7, []⟩ 3).1.dev_to_allocation_info = [] :=
  c4_releaseMemReservation_reports_over_release ⟨10, 7, 7, []⟩ 3

/-- C5: if `CHIPContext::allocate` reserves `size` bytes (the reservation
succeeds) and the native allocation returns `nullptr`, the function returns
the null pointer with `total_mem_used` equal to its value from before the
`reserveMem` call: the reservation is rolled back before failure is
returned. -/
theorem c5_allocate_rolls_back_on_native_failure
    (t : CHIPAllocationTracker) (size : Nat)
    (h2 : t.global_mem_size < SIZE_T_MOD)
    (h3 : t.total_mem_used + size ≤ t.global_mem_size) :
    ∃ t', CHIPContext_allocate t 0 size = .ok (0, t') ∧
      t'.total_mem_used = t.total_mem_used ∧
      t'.global_mem_size = t.global_mem_size := by
  have hcond : size ≤ usub t.global_mem_size t.total_mem_used := by
    unfold usub SIZE_T_MOD at *
    omega
  have hmod : (t.total_mem_used + size) % SIZE_T_MOD =
      t.total_mem_used + size := by
    unfold SIZE_T_MOD at *
    omega
  have hres : reserveMem t size =
      .ok ({ t with
              total_mem_used := t.total_mem_used + size
              max_mem_used :=
                if t.total_mem_used + size > t.max_mem_used then
                  t.total_mem_used + size
                else t.max_mem_used }, true) := by
    unfold reserveMem
    rw [if_pos hcond, hmod]
  have hrun : CHIPContext_allocate t 0 size =
      .ok (0, recordAllocation
        (releaseMemReservation
          { t with
              total_mem_used := t.total_mem_used + size
              max_mem_used :=
                if t.total_mem_used + size > t.max_mem_used then
                  t.total_mem_used + size
                else t.max_mem_used } size).1 0 size) := by
    unfold CHIPContext_allocate
    rw [hres]
    rfl
  refine ⟨_, hrun, ?_, ?_⟩
  · simp only [recordAllocation, releaseMemReservation]
    split <;> simp <;> omega
  · simp only [recordAllocation, releaseMemReservation]
    split <;> simp

/-- Witness for C5: capacity `100`, native allocation fails for `10` bytes. -/
theorem c5_witness :
    ∃ t', CHIPContext_allocate (mkCHIPAllocationTracker 100) 0 10 = .ok (0, t') ∧
      t'.total_mem_used = (mkCHIPAllocationTracker 100).total_mem_used ∧
      t'.global_mem_size = (mkCHIPAllocationTracker 100).global_mem_size :=
  c5_allocate_rolls_back_on_native_failure (mkCHIPAllocationTracker 100) 10
    (by decide) (by decide)

/-- C10: `reserveMem` never returns `false` — every `ok` result carries
`true`, every failure is the thrown `hipErrorMemoryAllocation` — so the
null-returning branch of `CHIPContext::allocate` guarded by `reserveMem`
returning `false` is unreachable: a successful `allocate` always returns
exactly the native allocation's pointer, and a failed reservation reaches
the caller as a thrown error. -/
theorem c10_reserveMem_never_returns_false
    (t : CHIPAllocationTracker) (bytes : Nat) :
    (∀ r, reserveMem t bytes = .ok r → r.2 = true) ∧
    (∀ e, reserveMem t bytes = .error e → e = .hipErrorMemoryAllocation) ∧
    (∀ nativePtr size p t',
      CHIPContext_allocate t nativePtr size = .ok (p, t') → p = nativePtr) := by
  refine ⟨?_, ?_, ?_⟩
  · intro r h
    obtain ⟨t', b2⟩ := r
    unfold reserveMem at h
    split at h <;> simp_all
  · intro e h
    unfold reserveMem at h
    split at h <;> simp_all
  · intro nativePtr size p t' h
    unfold CHIPContext_allocate reserveMem at h
    split at h
    · simp_all
    · rename_i t1 reserved heq
      split at heq
      · simp only [Except.ok.injEq, Prod.mk.injEq] at heq
        obtain ⟨h1', h2'⟩ := heq
        subst h2'
        simp_all
      · simp at heq

/-- Witness for C10 at concrete inputs: a successful reservation of `5`
bytes out of `100` reports `true`, and `allocate` hands back the native
pointer `42`. -/
theorem c10_witness :
    (((⟨100, 5, 5, []⟩ : CHIPAllocationTracker), true) :
        CHIPAllocationTracker × Bool).2 = true ∧
    (42 : Nat) = 42 :=
  ⟨(c10_reserveMem_never_returns_false (mkCHIPAllocationTracker 100) 5).1
      (⟨100, 5, 5, []⟩, true) rfl,
   (c10_reserveMem_never_returns_false (mkCHIPAllocationTracker 100) 5).2.2
      42 7 42 ⟨100, 7, 7, [(42, ⟨42, 7⟩)]⟩ rfl⟩

/-- C6 (code bug): allocate `10` bytes at native pointer `42`, then free
it.  `CHIPContext::free` releases the reservation but never removes the
record for `42` from the registry, so after one `free(42)` the record is
still there and a second `free(42)` again returns `hipSuccess` (and frees
the native pointer a second time), contradicting "each exactly once". -/
theorem c6_free_keeps_registry_record :
    CHIPContext_allocate (mkCHIPAllocationTracker 100) 42 10 =
      .ok (42, ⟨100, 10, 10, [(42, ⟨42, 10⟩)]⟩) ∧
    CHIPContext_free ⟨100, 10, 10, [(42, ⟨42, 10⟩)]⟩ 42 =
      .ok (.hipSuccess, ⟨100, 0, 10, [(42, ⟨42, 10⟩)]⟩) ∧
    mapFind [(42, (⟨42, 10⟩ : allocation_info))] 42 = some ⟨42, 10⟩ ∧
    CHIPContext_free ⟨100, 0, 10, [(42, ⟨42, 10⟩)]⟩ 42 =
      .ok (.hipSuccess, ⟨100, 0, 10, [(42, ⟨42, 10⟩)]⟩) :=
  ⟨rfl, rfl, rfl, rfl⟩

theorem count_fold_shift (c : Nat × Nat → Prop) [DecidablePred c]
    (l : List (Nat × Nat)) (n : Nat) :
    l.foldl (fun m p => if c p then m + 1 else m) n =
      n + l.foldl (fun m p => if c p then m + 1 else m) 0 := by
  induction l generalizing n with
  | nil => simp
  | cons p l ih =>
    rw [List.foldl_cons, List.foldl_cons, ih, ih (if c p then 0 + 1 else 0)]
    split <;> omega

theorem fold_mono (l : List (Nat × Nat)) :
    l.foldl (fun m p => if p.1 ≠ 0 ∧ p.1 ≤ p.2 then m + 1 else m) 0 ≤
      l.foldl (fun m p => if p.1 ≠ 0 then m + 1 else m) 0 := by
  induction l with
  | nil => simp
  | cons p l ih =>
    rw [List.foldl_cons, List.foldl_cons,
      count_fold_shift (fun q => q.1 ≠ 0 ∧ q.1 ≤ q.2),
      count_fold_shift (fun q => q.1 ≠ 0)]
    split_ifs <;> omega

theorem valid_eq_matched_iff (l : List (Nat × Nat)) :
    l.foldl (fun m p => if p.1 ≠ 0 then m + 1 else m) 0 =
      l.foldl (fun m p => if p.1 ≠ 0 ∧ p.1 ≤ p.2 then m + 1 else m) 0 ↔
    ∀ p ∈ l, p.1 ≠ 0 → p.1 ≤ p.2 := by
  induction l with
  | nil => simp
  | cons p l ih =>
    rw [List.foldl_cons, List.foldl_cons,
      count_fold_shift (fun q => q.1 ≠ 0),
      count_fold_shift (fun q => q.1 ≠ 0 ∧ q.1 ≤ q.2)]
    have hm := fold_mono l
    simp only [List.mem_cons, forall_eq_or_imp]
    rw [← ih]
    by_cases h1 : p.1 ≠ 0
    · by_cases h2 : p.1 ≤ p.2
      · rw [if_pos h1, if_pos ⟨h1, h2⟩]
        constructor
        · intro h
          exact ⟨fun _ => h2, by omega⟩
        · rintro ⟨-, h⟩
          omega
      · rw [if_pos h1, if_neg (fun hc => h2 hc.2)]
        constructor
        · intro h
          exact absurd h (by omega)
        · rintro ⟨hh, -⟩
          exact absurd (hh h1) h2
    · rw [if_neg h1, if_neg (fun hc => h1 hc.1)]
      simp only [h1, false_implies, true_and, IsEmpty.forall_iff]
      constructor
      · intro h
        omega
      · intro h
        omega

theorem validPropCount_eq_matchedCount_iff (req cur : hipDeviceProp_t) :
    validPropCount req cur = matchedCount req cur ↔ meetsAllRequested req cur := by
  unfold validPropCount matchedCount meetsAllRequested
  exact valid_eq_matched_iff (fieldPairs req cur)

theorem findDevFold_some (req : hipDeviceProp_t) (devs : List CHIPDeviceRec) :
    ∀ (acc : Option CHIPDeviceRec × Nat) (d : CHIPDeviceRec),
      (devs.foldl (findDevFold req) acc).1 = some d →
      acc.1 = some d ∨
        (d ∈ devs ∧ validPropCount req d.props = matchedCount req d.props) := by
  induction devs with
  | nil => exact fun acc d h => .inl h
  | cons e devs ih =>
    intro acc d h
    rw [List.foldl_cons] at h
    rcases ih (findDevFold req acc e) d h with h' | h'
    · unfold findDevFold at h'
      by_cases hq : validPropCount req e.props = matchedCount req e.props
      · rw [if_pos hq] at h'
        by_cases hgt : matchedCount req e.props > acc.2
        · rw [if_pos hgt] at h'
          simp only [Option.some.injEq] at h'
          subst h'
          exact .inr ⟨List.mem_cons_self e devs, hq⟩
        · rw [if_neg hgt] at h'
          exact .inl h'
      · rw [if_neg hq] at h'
        exact .inl h'
    · exact .inr ⟨List.mem_cons_of_mem e h'.1, h'.2⟩

theorem validPropCount_major3 (p : hipDeviceProp_t) :
    validPropCount reqMajor3 p = 1 := rfl

theorem matchedCount_major3 (p : hipDeviceProp_t) :
    matchedCount reqMajor3 p = if 3 ≤ p.major then 1 else 0 := by
  show (if ((3 : Nat) ≠ 0 ∧ 3 ≤ p.major) then 0 + 1 else 0) = _
  by_cases h : 3 ≤ p.major
  · rw [if_pos ⟨by omega, h⟩, if_pos h]
  · rw [if_neg (fun hc => h hc.2), if_neg h]

theorem findDevFold_major3 (acc : Option CHIPDeviceRec × Nat) (d : CHIPDeviceRec) :
    findDevFold reqMajor3 acc d =
      if 3 ≤ d.props.major then
        ((if 1 > acc.2 then some d else acc.1), max 1 acc.2)
      else acc := by
  unfold findDevFold
  rw [validPropCount_major3, matchedCount_major3]
  by_cases h : 3 ≤ d.props.major
  · rw [if_pos h, if_pos h, if_pos rfl]
  · rw [if_neg h, if_neg h, if_neg (by omega)]

theorem foldl_major3_found (devs : List CHIPDeviceRec) (d : CHIPDeviceRec) :
    (devs.foldl (findDevFold reqMajor3) (some d, 1)).1 = some d := by
  induction devs with
  | nil => rfl
  | cons e devs ih =>
    rw [List.foldl_cons, findDevFold_major3]
    split
    · simpa using ih
    · exact ih

/-- C2 counterexample: for the request specifying only `major = 3` and the
device list `[{major = 5}, {major = 3}]`, both devices qualify with equal
score, the qualifying device with the lowest `major ≥ 3` is the second one
(`major = 3`), yet `findDeviceMatchingProps` returns the first
(`major = 5`) — ties keep the earliest candidate, not the lowest `major`. -/
theorem c2_counterexample :
    findDeviceMatchingProps
        [⟨0, { zeroProps with major := 5 }⟩, ⟨1, { zeroProps with major := 3 }⟩]
        reqMajor3 = some ⟨0, { zeroProps with major := 5 }⟩ ∧
    (3 : Nat) ≤ ({ zeroProps with major := 3 } : hipDeviceProp_t).major ∧
    ¬ findDeviceMatchingProps
        [⟨0, { zeroProps with major := 5 }⟩, ⟨1, { zeroProps with major := 3 }⟩]
        reqMajor3 = some ⟨1, { zeroProps with major := 3 }⟩ := by
  refine ⟨rfl, by norm_num, by decide⟩

/-- C2 (amended): every device `findDeviceMatchingProps` returns belongs to
the backend's list and meets or exceeds every non-zero requested field (a
candidate failing even one requested field is never returned; all
qualifying candidates score the number of requested fields, so the maximal
score is attained trivially); for a request specifying only `major = 3` it
returns the first device in the backend's device order with `major ≥ 3` —
not the one with the lowest `major` — and no device (the never-assigned
`matched_device`, modelled as `none`) when no device satisfies
`major ≥ 3`. -/
theorem c2_findDeviceMatchingProps_characterization :
    (∀ (devs : List CHIPDeviceRec) (req : hipDeviceProp_t) (d : CHIPDeviceRec),
        findDeviceMatchingProps devs req = some d →
        d ∈ devs ∧ meetsAllRequested req d.props) ∧
    (∀ devs : List CHIPDeviceRec,
        findDeviceMatchingProps devs reqMajor3 =
          devs.find? (fun d => 3 ≤ d.props.major)) := by
  constructor
  · intro devs req d h
    unfold findDeviceMatchingProps at h
    rcases findDevFold_some req devs (none, 0) d h with h' | h'
    · exact absurd h' (by simp)
    · exact ⟨h'.1, (validPropCount_eq_matchedCount_iff req d.props).mp h'.2⟩
  · intro devs
    induction devs with
    | nil => rfl
    | cons e devs ih =>
      unfold findDeviceMatchingProps at ih ⊢
      rw [List.foldl_cons, findDevFold_major3]
      by_cases h : 3 ≤ e.props.major
      · rw [if_pos h, List.find?_cons_of_pos _ (by simpa using h)]
        have hacc : (((if 1 > 0 then some e else none) : Option CHIPDeviceRec),
            max 1 0) = (some e, 1) := by norm_num
        rw [hacc, foldl_major3_found]
      · rw [if_neg h, List.find?_cons_of_neg _ (by simpa using h)]
        exact ih

/-- Witness for C2 (amended): a single device with `major = 5` is returned,
belongs to the list, and meets the `major = 3` request; the `find?` form
agrees on that list. -/
theorem c2_witness :
    ((⟨0, { zeroProps with major := 5 }⟩ : CHIPDeviceRec) ∈
        [(⟨0, { zeroProps with major := 5 }⟩ : CHIPDeviceRec)] ∧
      meetsAllRequested reqMajor3 ({ zeroProps with major := 5 }) ∧
    findDeviceMatchingProps [⟨0, { zeroProps with major := 5 }⟩] reqMajor3 =
      List.find? (fun d => 3 ≤ d.props.major)
        [⟨0, { zeroProps with major := 5 }⟩]) :=
  ⟨(c2_findDeviceMatchingProps_characterization.1
      [⟨0, { zeroProps with major := 5 }⟩] reqMajor3
      ⟨0, { zeroProps with major := 5 }⟩ rfl).1,
   (c2_findDeviceMatchingProps_characterization.1
      [⟨0, { zeroProps with major := 5 }⟩] reqMajor3
      ⟨0, { zeroProps with major := 5 }⟩ rfl).2,
   c2_findDeviceMatchingProps_characterization.2
      [⟨0, { zeroProps with major := 5 }⟩]⟩

set_option maxHeartbeats 3200000 in
/-- C8: setting three arguments at byte offsets `{0, 8, 16}` with sizes
`{4, 8, 4}` via `setArg`, in any of the six call orders, then reading the
serialized buffer back through `getArgData`, yields each argument's bytes
unchanged at its offset; the buffer grows to fit and the contents at those
offsets do not depend on the call order. -/
theorem c8_setArg_round_trip_order_independent
    (a0 a1 a2 a3 b0 b1 b2 b3 b4 b5 b6 b7 c0 c1 c2 c3 : Nat) :
    let E : CHIPExecItem := mkCHIPExecItem (1, 1, 1) (1, 1, 1) 0
    let A := [a0, a1, a2, a3]
    let B := [b0, b1, b2, b3, b4, b5, b6, b7]
    let C := [c0, c1, c2, c3]
    (readBytes (getArgData (setArg (setArg (setArg E A 0) B 8) C 16)) 0 4 = A ∧
     readBytes (getArgData (setArg (setArg (setArg E A 0) B 8) C 16)) 8 8 = B ∧
     readBytes (getArgData (setArg (setArg (setArg E A 0) B 8) C 16)) 16 4 = C) ∧
    (readBytes (getArgData (setArg (setArg (setArg E A 0) C 16) B 8)) 0 4 = A ∧
     readBytes (getArgData (setArg (setArg (setArg E A 0) C 16) B 8)) 8 8 = B ∧
     readBytes (getArgData (setArg (setArg (setArg E A 0) C 16) B 8)) 16 4 = C) ∧
    (readBytes (getArgData (setArg (setArg (setArg E B 8) A 0) C 16)) 0 4 = A ∧
     readBytes (getArgData (setArg (setArg (setArg E B 8) A 0) C 16)) 8 8 = B ∧
     readBytes (getArgData (setArg (setArg (setArg E B 8) A 0) C 16)) 16 4 = C) ∧
    (readBytes (getArgData (setArg (setArg (setArg E B 8) C 16) A 0)) 0 4 = A ∧
     readBytes (getArgData (setArg (setArg (setArg E B 8) C 16) A 0)) 8 8 = B ∧
     readBytes (getArgData (setArg (setArg (setArg E B 8) C 16) A 0)) 16 4 = C) ∧
    (readBytes (getArgData (setArg (setArg (setArg E C 16) A 0) B 8)) 0 4 = A ∧
     readBytes (getArgData (setArg (setArg (setArg E C 16) A 0) B 8)) 8 8 = B ∧
     readBytes (getArgData (setArg (setArg (setArg E C 16) A 0) B 8)) 16 4 = C) ∧
    (readBytes (getArgData (setArg (setArg (setArg E C 16) B 8) A 0)) 0 4 = A ∧
     readBytes (getArgData (setArg (setArg (setArg E C 16) B 8) A 0)) 8 8 = B ∧
     readBytes (getArgData (setArg (setArg (setArg E C 16) B 8) A 0)) 16 4 = C) :=
  ⟨⟨rfl, rfl, rfl⟩, ⟨rfl, rfl, rfl⟩, ⟨rfl, rfl, rfl⟩,
   ⟨rfl, rfl, rfl⟩, ⟨rfl, rfl, rfl⟩, ⟨rfl, rfl, rfl⟩⟩

/-- C9 counterexample: on a module with zero variables and both flags
clear, a call to `allocateDeviceVariablesNoLock` alone marks the module
allocated but leaves `DeviceVariablesInitialized` false, refuting
"immediately marks the module both allocated and initialized" for that
entry point. -/
theorem c9_counterexample :
    (allocateDeviceVariablesNoLock ⟨[], []⟩ ⟨[], false, false⟩).1.DeviceVariablesAllocated
      = true ∧
    (allocateDeviceVariablesNoLock ⟨[], []⟩ ⟨[], false, false⟩).1.DeviceVariablesInitialized
      = false := by
  decide

/-- C9 (amended): on a module with zero declared variables,
`allocateDeviceVariablesNoLock` immediately marks the module allocated
(leaving the initialized flag as it was) and returns `hipSuccess`, and
`initializeDeviceVariablesNoLock` immediately marks it both allocated and
initialized; neither enqueues any auxiliary (shadow) kernel, issues a
blocking synchronization, allocates, or copies. -/
theorem c9_empty_module_immediately_allocated (oracle : DeviceOracle)
    (m : CHIPModule) (h : m.chip_vars = []) :
    (allocateDeviceVariablesNoLock oracle m).1.DeviceVariablesAllocated = true ∧
    (allocateDeviceVariablesNoLock oracle m).1.DeviceVariablesInitialized =
      m.DeviceVariablesInitialized ∧
    (allocateDeviceVariablesNoLock oracle m).2.1 = noEffects ∧
    (allocateDeviceVariablesNoLock oracle m).2.2 = .hipSuccess ∧
    (initializeDeviceVariablesNoLock oracle m).1.DeviceVariablesAllocated = true ∧
    (initializeDeviceVariablesNoLock oracle m).1.DeviceVariablesInitialized = true ∧
    (initializeDeviceVariablesNoLock oracle m).2 = noEffects := by
  obtain ⟨vars, alloc, ini⟩ := m
  simp only at h
  subst h
  cases alloc <;> cases ini <;>
    exact ⟨rfl, rfl, rfl, rfl, rfl, rfl, rfl⟩

/-- Witness for C9 (amended) on the empty module with both flags clear. -/
theorem c9_witness :
    (allocateDeviceVariablesNoLock ⟨[], []⟩ ⟨[], false, true⟩).1.DeviceVariablesAllocated
      = true ∧
    (allocateDeviceVariablesNoLock ⟨[], []⟩ ⟨[], false, true⟩).1.DeviceVariablesInitialized
      = (⟨[], false, true⟩ : CHIPModule).DeviceVariablesInitialized ∧
    (allocateDeviceVariablesNoLock ⟨[], []⟩ ⟨[], false, true⟩).2.1 = noEffects ∧
    (allocateDeviceVariablesNoLock ⟨[], []⟩ ⟨[], false, true⟩).2.2 = .hipSuccess ∧
    (initializeDeviceVariablesNoLock ⟨[], []⟩ ⟨[], false, true⟩).1.DeviceVariablesAllocated
      = true ∧
    (initializeDeviceVariablesNoLock ⟨[], []⟩ ⟨[], false, true⟩).1.DeviceVariablesInitialized
      = true ∧
    (initializeDeviceVariablesNoLock ⟨[], []⟩ ⟨[], false, true⟩).2 = noEffects :=
  c9_empty_module_immediately_allocated ⟨[], []⟩ ⟨[], false, true⟩ rfl

/-- C3 (code bug): running `CHIPCallbackData::setup` on a queue with one
prior operation shows that the member `gpu_ready` (and `gpu_ack`) stays a
fresh `EVENT_STATUS_INIT` event bound to no queue operation: the events of
the enqueued barrier and marker went to shadowing local variables.  The
monitor's `cb->gpu_ready->wait()` therefore waits on an event that the
device stream never signals, so nothing orders the host callback after the
queue's earlier operations. -/
theorem c3_setup_member_events_unbound :
    (CHIPCallbackData_setup onePriorOpState).1.gpu_ready = 1 ∧
    eventStatus (CHIPCallbackData_setup onePriorOpState).2
        (CHIPCallbackData_setup onePriorOpState).1.gpu_ready =
      some .EVENT_STATUS_INIT ∧
    eventStatus (CHIPCallbackData_setup onePriorOpState).2
        (CHIPCallbackData_setup onePriorOpState).1.gpu_ack =
      some .EVENT_STATUS_INIT ∧
    (∀ op ∈ (CHIPCallbackData_setup onePriorOpState).2.queueOps,
      opEvent op ≠ (CHIPCallbackData_setup onePriorOpState).1.gpu_ready ∧
      opEvent op ≠ (CHIPCallbackData_setup onePriorOpState).1.gpu_ack) ∧
    (CHIPCallbackData_setup onePriorOpState).2.queueOps =
      [.priorOp 0, .barrier [] 4, .barrier [2] 5, .marker 6] := by
  decide

/-- C7 counterexample: calling `recordStream` on an event whose status is
`EVENT_STATUS_COMPLETE` sets the status back to `EVENT_STATUS_RECORDING`,
refuting "once COMPLETE, no subsequent operation of the public event
interface returns its status to RECORDING". -/
theorem c7_counterexample :
    (⟨.EVENT_STATUS_COMPLETE⟩ : CHIPEvent).event_status =
      .EVENT_STATUS_COMPLETE ∧
    (recordStream ⟨.EVENT_STATUS_COMPLETE⟩).event_status =
      .EVENT_STATUS_RECORDING :=
  ⟨rfl, rfl⟩

/-- C7 (amended): `recordStream` sets the status to
`EVENT_STATUS_RECORDING` regardless of the prior status, so a COMPLETE
event reverts on re-record; deferred actions may only be run
(`doActions` asserts `isFinished`) once the event is COMPLETE, run in
attachment order (`addAction` appends), and the action list is cleared so
that across repeated `doActions` calls each attached action runs at most
once. -/
theorem c7_recordStream_and_doActions (e : CHIPEvent) (l : CHIPEventLevel0)
    (h : isFinished l = true) :
    (recordStream e).event_status = .EVENT_STATUS_RECORDING ∧
    l.event_status = .EVENT_STATUS_COMPLETE ∧
    (doActions l).2 = l.Actions_ ∧
    (∀ a, (doActions (addAction l a)).2 = l.Actions_ ++ [a]) ∧
    (doActions l).1.Actions_ = [] ∧
    (doActions (doActions l).1).2 = [] := by
  refine ⟨rfl, ?_, rfl, fun a => rfl, rfl, rfl⟩
  unfold isFinished at h
  exact of_decide_eq_true h

/-- Witness for C7 (amended) on a COMPLETE event carrying two actions. -/
theorem c7_witness :
    (recordStream ⟨.EVENT_STATUS_INIT⟩).event_status =
      .EVENT_STATUS_RECORDING ∧
    (⟨.EVENT_STATUS_COMPLETE, [1, 2]⟩ : CHIPEventLevel0).event_status =
      .EVENT_STATUS_COMPLETE ∧
    (doActions ⟨.EVENT_STATUS_COMPLETE, [1, 2]⟩).2 =
      (⟨.EVENT_STATUS_COMPLETE, [1, 2]⟩ : CHIPEventLevel0).Actions_ ∧
    (∀ a, (doActions (addAction ⟨.EVENT_STATUS_COMPLETE, [1, 2]⟩ a)).2 =
      (⟨.EVENT_STATUS_COMPLETE, [1, 2]⟩ : CHIPEventLevel0).Actions_ ++ [a]) ∧
    (doActions ⟨.EVENT_STATUS_COMPLETE, [1, 2]⟩).1.Actions_ = [] ∧
    (doActions (doActions ⟨.EVENT_STATUS_COMPLETE, [1, 2]⟩).1).2 = [] :=
  c7_recordStream_and_doActions ⟨.EVENT_STATUS_INIT⟩
    ⟨.EVENT_STATUS_COMPLETE, [1, 2]⟩ (by decide)
